import Mathlib

/-!
Shallow embedding of the XICS (ICS/ICP) interrupt controller core from
hw/xics.c (QEMU sPAPR).  Machine integers are modelled as `Nat` with explicit
truncation (`% 256` for `uint8_t` parameters, `% 2^24` / `% 2^32` for the
XISR / xirr fields) exactly where the C code masks or the parameter type
truncates.  The per-presenter output pin is a `Bool` (`true` = raised).
Every operation that can raise a pin additionally returns the list of raise
events it performed, each event recording the presenter state at the moment
of the raise; this makes "at the moment of the raise" properties statable.
-/

namespace Xics

/-- Presenter state, one per virtual processor (struct icp_server_state).
`xirr` is the 32-bit combined register (high byte CPPR, low 24 bits XISR);
`output` models the qemu_irq output pin level (`true` = raised). -/
structure IcpServerState where
  xirr : Nat
  pending_priority : Nat
  mfrr : Nat
  output : Bool
deriving Repr, DecidableEq

/-- Source state, one per interrupt number (struct ics_irq_state). -/
structure IcsIrqState where
  server : Nat
  priority : Nat
  saved_priority : Nat
  status : Nat
  lsi : Bool
deriving Repr, DecidableEq

/-- Combined controller state: the icp_state / ics_state pair (which hold
back-pointers to each other in C) flattened into one record.  The arrays are
total functions from indices; the code never bounds-checks its accesses. -/
structure XicsState where
  nr_servers : Nat
  servers : Nat → IcpServerState
  nr_irqs : Nat
  offset : Nat
  irqs : Nat → IcsIrqState

def XISR_MASK : Nat := 0x00ffffff
def CPPR_MASK : Nat := 0xff000000

/-- XISR(ss) = xirr & XISR_MASK (low 24 bits). -/
def XISR (ss : IcpServerState) : Nat := ss.xirr % 16777216

/-- CPPR(ss) = xirr >> 24 (high byte, since xirr is a uint32_t). -/
def CPPR (ss : IcpServerState) : Nat := ss.xirr / 16777216

/-- Modelled from the spec: `XICS_IPI` is defined in the header hw/xics.h,
which is not part of the sources; the spec describes it as the IPI
pseudo-source, a reserved interrupt number below `offset` (= 16) and
distinct from the "no interrupt" value 0.  QEMU uses the value 2. -/
def XICS_IPI : Nat := 2

def XICS_STATUS_ASSERTED : Nat := 0x1
def XICS_STATUS_SENT : Nat := 0x2
def XICS_STATUS_REJECTED : Nat := 0x4
def XICS_STATUS_MASKED_PENDING : Nat := 0x8

/-- `st |= bit` on the uint8_t status field. -/
def statusSet (st bit : Nat) : Nat := st ||| bit

/-- `st &= ~bit` on the uint8_t status field (complement within 8 bits). -/
def statusClear (st bit : Nat) : Nat := st &&& (255 - bit)

/-- `(st & bit) != 0`. -/
def statusTest (st bit : Nat) : Bool := st &&& bit ≠ 0

/-- Functional update of one presenter slot. -/
def updateServer (s : XicsState) (n : Nat) (ss : IcpServerState) : XicsState :=
  { s with servers := fun j => if j = n then ss else s.servers j }

/-- Functional update of one source slot. -/
def updateIrq (s : XicsState) (n : Nat) (irq : IcsIrqState) : XicsState :=
  { s with irqs := fun j => if j = n then irq else s.irqs j }

/-- A raise event: the presenter values at the moment `qemu_irq_raise` runs. -/
structure RaiseEvent where
  server : Nat
  xisr : Nat
  pending_priority : Nat
  cppr : Nat
deriving Repr, DecidableEq

/-- ics_reject(ics, nr): set REJECTED, clear SENT on source `nr - offset`.
(C computes the index with int arithmetic; `nr < offset` would be undefined
behaviour there and is modelled with truncated Nat subtraction.) -/
def ics_reject (s : XicsState) (nr : Nat) : XicsState :=
  let srcno := nr - s.offset
  let irq := s.irqs srcno
  updateIrq s srcno
    { irq with status := statusClear (statusSet irq.status XICS_STATUS_REJECTED)
                                     XICS_STATUS_SENT }

/-- ics_eoi(ics, nr): for an LSI source clear SENT; no-op for MSI. -/
def ics_eoi (s : XicsState) (nr : Nat) : XicsState :=
  let srcno := nr - s.offset
  let irq := s.irqs srcno
  if irq.lsi then
    updateIrq s srcno { irq with status := statusClear irq.status XICS_STATUS_SENT }
  else
    s

/-- icp_irq(icp, server, nr, priority): deliver source `nr` at `priority` to
presenter `server`.  `priority` is a uint8_t parameter, hence `% 256`. -/
def icp_irq (s : XicsState) (server nr priority : Nat) :
    XicsState × List RaiseEvent :=
  let priority := priority % 256
  let ss := s.servers server
  if priority ≥ CPPR ss ∨ (XISR ss ≠ 0 ∧ ss.pending_priority ≤ priority) then
    (ics_reject s nr, [])
  else
    let s1 := if XISR ss ≠ 0 then ics_reject s (XISR ss) else s
    let ss1 : IcpServerState :=
      { ss with xirr := (ss.xirr / 16777216) * 16777216 + nr % 16777216,
                pending_priority := priority, output := true }
    (updateServer s1 server ss1,
     [{ server := server, xisr := XISR ss1,
        pending_priority := ss1.pending_priority, cppr := CPPR ss1 }])

/-- icp_check_ipi(icp, server): install the IPI pseudo-source if it beats the
currently pending XISR. -/
def icp_check_ipi (s : XicsState) (server : Nat) :
    XicsState × List RaiseEvent :=
  let ss := s.servers server
  if XISR ss ≠ 0 ∧ ss.pending_priority ≤ ss.mfrr then
    (s, [])
  else
    let s1 := if XISR ss ≠ 0 then ics_reject s (XISR ss) else s
    let ss1 : IcpServerState :=
      { ss with xirr := (ss.xirr / 16777216) * 16777216 + XICS_IPI,
                pending_priority := ss.mfrr, output := true }
    (updateServer s1 server ss1,
     [{ server := server, xisr := XISR ss1,
        pending_priority := ss1.pending_priority, cppr := CPPR ss1 }])

/-- resend_msi(ics, srcno): if REJECTED, clear REJECTED; then deliver via
icp_irq when the source is not masked. -/
def resend_msi (s : XicsState) (srcno : Nat) : XicsState × List RaiseEvent :=
  let irq := s.irqs srcno
  if statusTest irq.status XICS_STATUS_REJECTED then
    let s1 := updateIrq s srcno
      { irq with status := statusClear irq.status XICS_STATUS_REJECTED }
    if irq.priority ≠ 0xff then
      icp_irq s1 irq.server (srcno + s.offset) irq.priority
    else
      (s1, [])
  else
    (s, [])

/-- resend_lsi(ics, srcno): if unmasked, asserted and not yet sent, mark SENT
and deliver via icp_irq. -/
def resend_lsi (s : XicsState) (srcno : Nat) : XicsState × List RaiseEvent :=
  let irq := s.irqs srcno
  if irq.priority ≠ 0xff ∧ statusTest irq.status XICS_STATUS_ASSERTED
      ∧ ¬ statusTest irq.status XICS_STATUS_SENT then
    let s1 := updateIrq s srcno
      { irq with status := statusSet irq.status XICS_STATUS_SENT }
    icp_irq s1 irq.server (srcno + s.offset) irq.priority
  else
    (s, [])

/-- The body of ics_resend's for-loop from index `i`, with `fuel` iterations
remaining (the loop bound `nr_irqs` never changes during the loop). -/
def ics_resend_from (s : XicsState) (i : Nat) : Nat → XicsState × List RaiseEvent
  | 0 => (s, [])
  | fuel + 1 =>
    let r1 := if (s.irqs i).lsi then resend_lsi s i else resend_msi s i
    let r2 := ics_resend_from r1.1 (i + 1) fuel
    (r2.1, r1.2 ++ r2.2)

/-- ics_resend(ics): replay every source through resend_lsi / resend_msi. -/
def ics_resend (s : XicsState) : XicsState × List RaiseEvent :=
  ics_resend_from s 0 s.nr_irqs

/-- icp_resend(icp, server): re-examine the IPI channel, then the sources. -/
def icp_resend (s : XicsState) (server : Nat) : XicsState × List RaiseEvent :=
  let ss := s.servers server
  let r1 := if ss.mfrr < CPPR ss then icp_check_ipi s server else (s, [])
  let r2 := ics_resend r1.1
  (r2.1, r1.2 ++ r2.2)

/-- icp_set_cppr(icp, server, cppr): update CPPR; withdraw the pending XISR
when the new CPPR no longer admits it; resend when raising with no XISR. -/
def icp_set_cppr (s : XicsState) (server cppr : Nat) :
    XicsState × List RaiseEvent :=
  let cppr := cppr % 256
  let ss := s.servers server
  let old_cppr := CPPR ss
  let ss1 : IcpServerState := { ss with xirr := ss.xirr % 16777216 + cppr * 16777216 }
  let s1 := updateServer s server ss1
  if cppr < old_cppr then
    if XISR ss1 ≠ 0 ∧ cppr ≤ ss1.pending_priority then
      let old_xisr := XISR ss1
      let ss2 : IcpServerState :=
        { ss1 with xirr := (ss1.xirr / 16777216) * 16777216, output := false }
      (ics_reject (updateServer s1 server ss2) old_xisr, [])
    else
      (s1, [])
  else
    if XISR ss1 = 0 then icp_resend s1 server else (s1, [])

/-- icp_set_mfrr(icp, server, mfrr): store mfrr and re-check the IPI channel
when it is now favoured over CPPR. -/
def icp_set_mfrr (s : XicsState) (server mfrr : Nat) :
    XicsState × List RaiseEvent :=
  let mfrr := mfrr % 256
  let ss := s.servers server
  let ss1 : IcpServerState := { ss with mfrr := mfrr }
  let s1 := updateServer s server ss1
  if mfrr < CPPR ss1 then icp_check_ipi s1 server else (s1, [])

/-- icp_accept(ss): lower the pin, return the old xirr, store
pending_priority << 24 (clearing XISR, placing the pending priority as the
new CPPR byte). -/
def icp_accept (s : XicsState) (server : Nat) : XicsState × Nat :=
  let ss := s.servers server
  let ss1 : IcpServerState :=
    { ss with output := false, xirr := ss.pending_priority * 16777216 }
  (updateServer s server ss1, ss.xirr)

/-- icp_eoi(icp, server, xirr): restore the CPPR byte from the guest-supplied
xirr, EOI the source layer, and resend if nothing is pending.  `xirr` is a
uint32_t parameter, hence `% 2^32`. -/
def icp_eoi (s : XicsState) (server xirr : Nat) : XicsState × List RaiseEvent :=
  let xirr := xirr % 4294967296
  let ss := s.servers server
  let ss1 : IcpServerState :=
    { ss with xirr := ss.xirr % 16777216 + (xirr / 16777216) * 16777216 }
  let s1 := updateServer s server ss1
  let s2 := ics_eoi s1 (xirr % 16777216)
  if XISR (s2.servers server) = 0 then icp_resend s2 server else (s2, [])

/-- set_irq_msi(ics, srcno, val): on a rising edge, latch MASKED_PENDING when
masked, otherwise deliver. -/
def set_irq_msi (s : XicsState) (srcno val : Nat) : XicsState × List RaiseEvent :=
  let irq := s.irqs srcno
  if val ≠ 0 then
    if irq.priority = 0xff then
      (updateIrq s srcno
        { irq with status := statusSet irq.status XICS_STATUS_MASKED_PENDING }, [])
    else
      icp_irq s irq.server (srcno + s.offset) irq.priority
  else
    (s, [])

/-- set_irq_lsi(ics, srcno, val): track the level in ASSERTED, then try to
(re)deliver. -/
def set_irq_lsi (s : XicsState) (srcno val : Nat) : XicsState × List RaiseEvent :=
  let irq := s.irqs srcno
  let st1 := if val ≠ 0 then statusSet irq.status XICS_STATUS_ASSERTED
             else statusClear irq.status XICS_STATUS_ASSERTED
  let s1 := updateIrq s srcno { irq with status := st1 }
  resend_lsi s1 srcno

/-- ics_set_irq(opaque, srcno, val): dispatch on the source type. -/
def ics_set_irq (s : XicsState) (srcno val : Nat) : XicsState × List RaiseEvent :=
  if (s.irqs srcno).lsi then set_irq_lsi s srcno val else set_irq_msi s srcno val

/-- write_xive_msi(ics, srcno): deliver a latched masked-pending edge once the
source is unmasked. -/
def write_xive_msi (s : XicsState) (srcno : Nat) : XicsState × List RaiseEvent :=
  let irq := s.irqs srcno
  if ¬ statusTest irq.status XICS_STATUS_MASKED_PENDING ∨ irq.priority = 0xff then
    (s, [])
  else
    let s1 := updateIrq s srcno
      { irq with status := statusClear irq.status XICS_STATUS_MASKED_PENDING }
    icp_irq s1 irq.server (srcno + s.offset) irq.priority

/-- write_xive_lsi(ics, srcno) = resend_lsi. -/
def write_xive_lsi (s : XicsState) (srcno : Nat) : XicsState × List RaiseEvent :=
  resend_lsi s srcno

/-- ics_write_xive(ics, nr, server, priority, saved_priority): update routing
and mask state, then attempt delivery.  The priority arguments are uint8_t
parameters, hence `% 256`. -/
def ics_write_xive (s : XicsState) (nr server priority saved_priority : Nat) :
    XicsState × List RaiseEvent :=
  let priority := priority % 256
  let saved_priority := saved_priority % 256
  let srcno := nr - s.offset
  let irq := s.irqs srcno
  let irq1 : IcsIrqState :=
    { irq with server := server, priority := priority,
               saved_priority := saved_priority }
  let s1 := updateIrq s srcno irq1
  if irq1.lsi then write_xive_lsi s1 srcno else write_xive_msi s1 srcno

/-- ics_valid_irq(ics, nr): nr ∈ [offset, offset + nr_irqs). -/
def ics_valid_irq (s : XicsState) (nr : Nat) : Bool :=
  s.offset ≤ nr ∧ nr < s.offset + s.nr_irqs

/-- rtas_set_xive: returns (new state, rets[0] status, raise events).  The
three arguments are loaded with rtas_ld into uint32_t locals. -/
def rtas_set_xive (s : XicsState) (nargs : Nat) (args : List Nat) (nret : Nat) :
    XicsState × Int × List RaiseEvent :=
  if nargs ≠ 3 ∨ nret ≠ 1 then (s, -3, [])
  else
    let nr := args.getD 0 0 % 4294967296
    let server := args.getD 1 0 % 4294967296
    let priority := args.getD 2 0 % 4294967296
    if ¬ ics_valid_irq s nr ∨ server ≥ s.nr_servers ∨ priority > 0xff then
      (s, -3, [])
    else
      let r := ics_write_xive s nr server priority priority
      (r.1, 0, r.2)

/-- rtas_int_off: mask the source, saving the prior priority. -/
def rtas_int_off (s : XicsState) (nargs : Nat) (args : List Nat) (nret : Nat) :
    XicsState × Int × List RaiseEvent :=
  if nargs ≠ 1 ∨ nret ≠ 1 then (s, -3, [])
  else
    let nr := args.getD 0 0 % 4294967296
    if ¬ ics_valid_irq s nr then (s, -3, [])
    else
      let r := ics_write_xive s nr (s.irqs (nr - s.offset)).server 0xff
                 (s.irqs (nr - s.offset)).priority
      (r.1, 0, r.2)

/-- rtas_int_on: restore the saved priority. -/
def rtas_int_on (s : XicsState) (nargs : Nat) (args : List Nat) (nret : Nat) :
    XicsState × Int × List RaiseEvent :=
  if nargs ≠ 1 ∨ nret ≠ 1 then (s, -3, [])
  else
    let nr := args.getD 0 0 % 4294967296
    if ¬ ics_valid_irq s nr then (s, -3, [])
    else
      let r := ics_write_xive s nr (s.irqs (nr - s.offset)).server
                 (s.irqs (nr - s.offset)).saved_priority
                 (s.irqs (nr - s.offset)).saved_priority
      (r.1, 0, r.2)

/-- The top-level operations of the controller: the guest hypercall surface
(H_CPPR / H_IPI / H_XIRR / H_EOI), the device line-toggle port, and the
configuration write.  The RTAS calls factor through `ics_write_xive` (or do
nothing), so `writeXive` covers them for reachability purposes. -/
inductive Op where
  | setCppr (server cppr : Nat)
  | setMfrr (server mfrr : Nat)
  | accept (server : Nat)
  | eoi (server xirr : Nat)
  | setIrq (srcno val : Nat)
  | writeXive (nr server priority saved_priority : Nat)

/-- One operation applied to the state, together with its raise events. -/
def step (s : XicsState) : Op → XicsState × List RaiseEvent
  | .setCppr server cppr => icp_set_cppr s server cppr
  | .setMfrr server mfrr => icp_set_mfrr s server mfrr
  | .accept server => ((icp_accept s server).1, [])
  | .eoi server xirr => icp_eoi s server xirr
  | .setIrq srcno val => ics_set_irq s srcno val
  | .writeXive nr server priority saved_priority =>
      ics_write_xive s nr server priority saved_priority

/-- The state xics_reset establishes: presenters cleared with mfrr = 0xff and
pins deasserted; sources reset (except the lsi type bit) with both priorities
masked.  `offset` is fixed to 16 by xics_system_init. -/
def resetState (nr_servers nr_irqs : Nat) (lsi : Nat → Bool) : XicsState :=
  { nr_servers := nr_servers
    servers := fun _ => { xirr := 0, pending_priority := 0, mfrr := 0xff, output := false }
    nr_irqs := nr_irqs
    offset := 16
    irqs := fun i =>
      { server := 0, priority := 0xff, saved_priority := 0xff, status := 0, lsi := lsi i } }

/-- States reachable from reset by any sequence of top-level operations. -/
inductive Reachable (nr_servers nr_irqs : Nat) (lsi : Nat → Bool) : XicsState → Prop
  | reset : Reachable nr_servers nr_irqs lsi (resetState nr_servers nr_irqs lsi)
  | step (s : XicsState) (op : Op) :
      Reachable nr_servers nr_irqs lsi s →
      Reachable nr_servers nr_irqs lsi (step s op).1

@[simp] theorem updateServer_servers (s : XicsState) (n : Nat) (ss : IcpServerState)
    (j : Nat) : (updateServer s n ss).servers j = if j = n then ss else s.servers j := rfl

@[simp] theorem updateServer_irqs (s : XicsState) (n : Nat) (ss : IcpServerState) :
    (updateServer s n ss).irqs = s.irqs := rfl

@[simp] theorem updateServer_offset (s : XicsState) (n : Nat) (ss : IcpServerState) :
    (updateServer s n ss).offset = s.offset := rfl

@[simp] theorem updateServer_nr_irqs (s : XicsState) (n : Nat) (ss : IcpServerState) :
    (updateServer s n ss).nr_irqs = s.nr_irqs := rfl

@[simp] theorem updateServer_nr_servers (s : XicsState) (n : Nat) (ss : IcpServerState) :
    (updateServer s n ss).nr_servers = s.nr_servers := rfl

@[simp] theorem updateIrq_irqs (s : XicsState) (n : Nat) (irq : IcsIrqState)
    (j : Nat) : (updateIrq s n irq).irqs j = if j = n then irq else s.irqs j := rfl

@[simp] theorem updateIrq_servers (s : XicsState) (n : Nat) (irq : IcsIrqState) :
    (updateIrq s n irq).servers = s.servers := rfl

@[simp] theorem updateIrq_offset (s : XicsState) (n : Nat) (irq : IcsIrqState) :
    (updateIrq s n irq).offset = s.offset := rfl

@[simp] theorem updateIrq_nr_irqs (s : XicsState) (n : Nat) (irq : IcsIrqState) :
    (updateIrq s n irq).nr_irqs = s.nr_irqs := rfl

@[simp] theorem updateIrq_nr_servers (s : XicsState) (n : Nat) (irq : IcsIrqState) :
    (updateIrq s n irq).nr_servers = s.nr_servers := rfl

@[simp] theorem ics_reject_servers (s : XicsState) (nr : Nat) :
    (ics_reject s nr).servers = s.servers := rfl

@[simp] theorem ics_reject_offset (s : XicsState) (nr : Nat) :
    (ics_reject s nr).offset = s.offset := rfl

@[simp] theorem ics_reject_nr_irqs (s : XicsState) (nr : Nat) :
    (ics_reject s nr).nr_irqs = s.nr_irqs := rfl

@[simp] theorem ics_eoi_servers (s : XicsState) (nr : Nat) :
    (ics_eoi s nr).servers = s.servers := by
  simp only [ics_eoi]; split <;> rfl

@[simp] theorem ics_eoi_offset (s : XicsState) (nr : Nat) :
    (ics_eoi s nr).offset = s.offset := by
  simp only [ics_eoi]; split <;> rfl

@[simp] theorem ics_eoi_nr_irqs (s : XicsState) (nr : Nat) :
    (ics_eoi s nr).nr_irqs = s.nr_irqs := by
  simp only [ics_eoi]; split <;> rfl

theorem low24_lt (x : Nat) : x % 16777216 < 16777216 := Nat.mod_lt _ (by norm_num)

/-- Writing low 24 bits keeps the high byte. -/
theorem div_high_set_low (x v : Nat) (hv : v < 16777216) :
    ((x / 16777216) * 16777216 + v) / 16777216 = x / 16777216 := by
  rw [Nat.add_comm, Nat.add_mul_div_right _ _ (by norm_num : 0 < 16777216),
    Nat.div_eq_of_lt hv, Nat.zero_add]

/-- Writing low 24 bits stores exactly them. -/
theorem mod_high_set_low (x v : Nat) :
    ((x / 16777216) * 16777216 + v) % 16777216 = v % 16777216 := by
  rw [Nat.add_comm, Nat.add_mul_mod_self_right]

/-- Writing the high byte keeps the low 24 bits. -/
theorem mod_set_high (x c : Nat) :
    (x % 16777216 + c * 16777216) % 16777216 = x % 16777216 := by
  rw [Nat.add_mul_mod_self_right]; exact Nat.mod_mod_of_dvd x dvd_rfl

/-- Writing the high byte stores exactly it. -/
theorem div_set_high (x c : Nat) :
    (x % 16777216 + c * 16777216) / 16777216 = c := by
  rw [Nat.add_mul_div_right _ _ (by norm_num : 0 < 16777216),
    Nat.div_eq_of_lt (low24_lt x), Nat.zero_add]

theorem statusTest_testBit (st k : Nat) : statusTest st (2 ^ k) = st.testBit k := by
  have h := Nat.and_two_pow st k
  simp only [statusTest]
  rcases hb : st.testBit k with _ | _ <;> rw [hb] at h <;> simp [h] <;> positivity

@[simp] theorem statusTest_asserted (st : Nat) :
    statusTest st XICS_STATUS_ASSERTED = st.testBit 0 := statusTest_testBit st 0

@[simp] theorem statusTest_sent (st : Nat) :
    statusTest st XICS_STATUS_SENT = st.testBit 1 := statusTest_testBit st 1

@[simp] theorem statusTest_rejected (st : Nat) :
    statusTest st XICS_STATUS_REJECTED = st.testBit 2 := statusTest_testBit st 2

@[simp] theorem statusTest_masked_pending (st : Nat) :
    statusTest st XICS_STATUS_MASKED_PENDING = st.testBit 3 := statusTest_testBit st 3

@[simp] theorem testBit_statusSet (st b k : Nat) :
    (statusSet st b).testBit k = (st.testBit k || b.testBit k) :=
  Nat.testBit_lor st b k

@[simp] theorem testBit_statusClear (st b k : Nat) :
    (statusClear st b).testBit k = (st.testBit k && (255 - b).testBit k) :=
  Nat.testBit_land st (255 - b) k

/-- The ICP/ICS operations never touch a source's routing fields (`server`,
`priority`, `saved_priority`, `lsi`) — only `ics_write_xive` does — and the
only place that ever sets the SENT status bit is `resend_lsi`, which requires
an unmasked source and is only ever invoked on LSI sources. -/
def IrqsTame (s s' : XicsState) : Prop :=
  ∀ i, (s'.irqs i).server = (s.irqs i).server ∧
       (s'.irqs i).priority = (s.irqs i).priority ∧
       (s'.irqs i).saved_priority = (s.irqs i).saved_priority ∧
       (s'.irqs i).lsi = (s.irqs i).lsi ∧
       ((s'.irqs i).status.testBit 1 = true →
         (s.irqs i).status.testBit 1 = true ∨
         ((s.irqs i).priority ≠ 255 ∧ (s.irqs i).lsi = true))

theorem irqsTame_refl (s : XicsState) : IrqsTame s s :=
  fun _ => ⟨rfl, rfl, rfl, rfl, fun h => Or.inl h⟩

theorem irqsTame_trans {s1 s2 s3 : XicsState}
    (h12 : IrqsTame s1 s2) (h23 : IrqsTame s2 s3) : IrqsTame s1 s3 := by
  intro i
  obtain ⟨a, b, c, d, e⟩ := h12 i
  obtain ⟨a', b', c', d', e'⟩ := h23 i
  refine ⟨a'.trans a, b'.trans b, c'.trans c, d'.trans d, ?_⟩
  intro h
  rcases e' h with h2 | ⟨hp, hl⟩
  · exact e h2
  · exact Or.inr ⟨b ▸ hp, d ▸ hl⟩

theorem ics_reject_irqsTame (s : XicsState) (nr : Nat) :
    IrqsTame s (ics_reject s nr) := by
  intro i
  by_cases hi : i = nr - s.offset <;>
    simp +decide [ics_reject, hi] <;> tauto

theorem ics_eoi_irqsTame (s : XicsState) (nr : Nat) :
    IrqsTame s (ics_eoi s nr) := by
  intro i
  simp only [ics_eoi]
  split
  · by_cases hi : i = nr - s.offset <;> simp +decide [hi] <;> tauto
  · exact ⟨rfl, rfl, rfl, rfl, fun h => Or.inl h⟩

theorem icp_irq_irqsTame (s : XicsState) (server nr priority : Nat) :
    IrqsTame s (icp_irq s server nr priority).1 := by
  simp only [icp_irq]
  split
  · exact ics_reject_irqsTame s nr
  · intro i
    simp only [updateServer_irqs]
    split
    · exact ics_reject_irqsTame s _ i
    · exact ⟨rfl, rfl, rfl, rfl, fun h => Or.inl h⟩

theorem icp_check_ipi_irqsTame (s : XicsState) (server : Nat) :
    IrqsTame s (icp_check_ipi s server).1 := by
  simp only [icp_check_ipi]
  split
  · exact irqsTame_refl s
  · intro i
    simp only [updateServer_irqs]
    split
    · exact ics_reject_irqsTame s _ i
    · exact ⟨rfl, rfl, rfl, rfl, fun h => Or.inl h⟩

theorem resend_msi_irqsTame (s : XicsState) (srcno : Nat) :
    IrqsTame s (resend_msi s srcno).1 := by
  simp only [resend_msi]
  split
  · split
    · refine irqsTame_trans ?_ (icp_irq_irqsTame _ _ _ _)
      intro i
      by_cases hi : i = srcno <;> simp +decide [hi] <;> tauto
    · intro i
      by_cases hi : i = srcno <;> simp +decide [hi] <;> tauto
  · exact irqsTame_refl s

theorem resend_lsi_irqsTame (s : XicsState) (srcno : Nat)
    (hlsi : (s.irqs srcno).lsi = true) :
    IrqsTame s (resend_lsi s srcno).1 := by
  simp only [resend_lsi]
  split
  · rename_i hcond
    refine irqsTame_trans ?_ (icp_irq_irqsTame _ _ _ _)
    intro i
    by_cases hi : i = srcno
    · subst hi
      simp +decide [hcond.1, hlsi]
    · simp [hi]; tauto
  · exact irqsTame_refl s

theorem irqsTame_of_eq {s s' : XicsState} (h : s'.irqs = s.irqs) : IrqsTame s s' := by
  intro i
  rw [h]
  exact irqsTame_refl s i

theorem ics_resend_from_irqsTame (s : XicsState) (i fuel : Nat) :
    IrqsTame s (ics_resend_from s i fuel).1 := by
  induction fuel generalizing s i with
  | zero => exact irqsTame_refl s
  | succ n ih =>
    simp only [ics_resend_from]
    have h1 : IrqsTame s
        (if (s.irqs i).lsi = true then resend_lsi s i else resend_msi s i).1 := by
      split
      · exact resend_lsi_irqsTame s i ‹_›
      · exact resend_msi_irqsTame s i
    exact irqsTame_trans h1 (ih _ _)

theorem ics_resend_irqsTame (s : XicsState) : IrqsTame s (ics_resend s).1 :=
  ics_resend_from_irqsTame s 0 s.nr_irqs

theorem icp_resend_irqsTame (s : XicsState) (server : Nat) :
    IrqsTame s (icp_resend s server).1 := by
  simp only [icp_resend]
  have h1 : IrqsTame s
      (if (s.servers server).mfrr < CPPR (s.servers server) then icp_check_ipi s server
       else (s, [])).1 := by
    split
    · exact icp_check_ipi_irqsTame s server
    · exact irqsTame_refl s
  exact irqsTame_trans h1 (ics_resend_irqsTame _)

theorem icp_set_cppr_irqsTame (s : XicsState) (server cppr : Nat) :
    IrqsTame s (icp_set_cppr s server cppr).1 := by
  simp only [icp_set_cppr]
  split
  · split
    · exact irqsTame_trans (irqsTame_of_eq rfl) (ics_reject_irqsTame _ _)
    · exact irqsTame_of_eq rfl
  · split
    · exact irqsTame_trans (irqsTame_of_eq rfl) (icp_resend_irqsTame _ _)
    · exact irqsTame_of_eq rfl

theorem icp_set_mfrr_irqsTame (s : XicsState) (server mfrr : Nat) :
    IrqsTame s (icp_set_mfrr s server mfrr).1 := by
  simp only [icp_set_mfrr]
  split
  · exact irqsTame_trans (irqsTame_of_eq rfl) (icp_check_ipi_irqsTame _ _)
  · exact irqsTame_of_eq rfl

theorem icp_accept_irqsTame (s : XicsState) (server : Nat) :
    IrqsTame s (icp_accept s server).1 :=
  irqsTame_of_eq rfl

theorem icp_eoi_irqsTame (s : XicsState) (server xirr : Nat) :
    IrqsTame s (icp_eoi s server xirr).1 := by
  simp only [icp_eoi]
  split
  · refine irqsTame_trans (irqsTame_trans ?_ (ics_eoi_irqsTame _ _)) (icp_resend_irqsTame _ _)
    exact irqsTame_of_eq rfl
  · refine irqsTame_trans ?_ (ics_eoi_irqsTame _ _)
    exact irqsTame_of_eq rfl

theorem set_irq_msi_irqsTame (s : XicsState) (srcno val : Nat) :
    IrqsTame s (set_irq_msi s srcno val).1 := by
  simp only [set_irq_msi]
  split
  · split
    · intro i
      by_cases hi : i = srcno <;> simp +decide [hi] <;> tauto
    · exact icp_irq_irqsTame _ _ _ _
  · exact irqsTame_refl s

theorem set_irq_lsi_irqsTame (s : XicsState) (srcno val : Nat)
    (hlsi : (s.irqs srcno).lsi = true) :
    IrqsTame s (set_irq_lsi s srcno val).1 := by
  simp only [set_irq_lsi]
  refine irqsTame_trans ?_ (resend_lsi_irqsTame _ _ ?_)
  · intro i
    by_cases hi : i = srcno
    · subst hi
      simp only [updateIrq_irqs, if_pos rfl]
      refine ⟨rfl, rfl, rfl, rfl, ?_⟩
      by_cases hv : val = 0 <;> simp +decide [hv] <;> tauto
    · simp [hi]; tauto
  · simp [hlsi]

theorem ics_set_irq_irqsTame (s : XicsState) (srcno val : Nat) :
    IrqsTame s (ics_set_irq s srcno val).1 := by
  simp only [ics_set_irq]
  split
  · exact set_irq_lsi_irqsTame s srcno val ‹_›
  · exact set_irq_msi_irqsTame s srcno val

theorem write_xive_msi_irqsTame (s : XicsState) (srcno : Nat) :
    IrqsTame s (write_xive_msi s srcno).1 := by
  simp only [write_xive_msi]
  split
  · exact irqsTame_refl s
  · refine irqsTame_trans ?_ (icp_irq_irqsTame _ _ _ _)
    intro i
    by_cases hi : i = srcno <;> simp +decide [hi] <;> tauto

theorem write_xive_lsi_irqsTame (s : XicsState) (srcno : Nat)
    (hlsi : (s.irqs srcno).lsi = true) :
    IrqsTame s (write_xive_lsi s srcno).1 :=
  resend_lsi_irqsTame s srcno hlsi

/-- The routing-write-then-deliver pattern of ics_write_xive: a newly set
SENT bit can only appear on an LSI source whose freshly written priority is
not the mask value, and the lsi type bit is never changed. -/
theorem write_pattern_tame (s : XicsState) (srcno : Nat) (irq1 : IcsIrqState)
    (hst : irq1.status = (s.irqs srcno).status)
    (hlsi : irq1.lsi = (s.irqs srcno).lsi) :
    ∀ i,
      (((if irq1.lsi = true then write_xive_lsi (updateIrq s srcno irq1) srcno
         else write_xive_msi (updateIrq s srcno irq1) srcno).1.irqs i).lsi
        = (s.irqs i).lsi) ∧
      (((if irq1.lsi = true then write_xive_lsi (updateIrq s srcno irq1) srcno
         else write_xive_msi (updateIrq s srcno irq1) srcno).1.irqs i).status.testBit 1 = true →
        (s.irqs i).status.testBit 1 = true ∨
        (((if irq1.lsi = true then write_xive_lsi (updateIrq s srcno irq1) srcno
           else write_xive_msi (updateIrq s srcno irq1) srcno).1.irqs i).priority ≠ 255 ∧
         (s.irqs i).lsi = true)) := by
  intro i
  have hTame : IrqsTame (updateIrq s srcno irq1)
      (if irq1.lsi = true then write_xive_lsi (updateIrq s srcno irq1) srcno
       else write_xive_msi (updateIrq s srcno irq1) srcno).1 := by
    split
    · apply write_xive_lsi_irqsTame
      simpa using ‹irq1.lsi = true›
    · apply write_xive_msi_irqsTame
  obtain ⟨_, hpr, _, hls, hsent⟩ := hTame i
  by_cases hi : i = srcno
  · subst hi
    constructor
    · rw [hls]; simpa using hlsi
    · intro h
      rcases hsent h with h2 | ⟨hp, hl⟩
      · left
        have : irq1.status.testBit 1 = true := by simpa using h2
        rw [← hst]; exact this
      · right
        refine ⟨by rw [hpr]; exact hp, ?_⟩
        rw [← hlsi]
        simpa using hl
  · constructor
    · rw [hls]; simp [hi]
    · intro h
      rcases hsent h with h2 | ⟨hp, hl⟩
      · left; simpa [hi] using h2
      · right
        refine ⟨by rw [hpr]; exact hp, ?_⟩
        simpa [hi] using hl

/-- Per-operation summary: the lsi bit is preserved, and a newly set SENT
status bit only appears on an LSI source whose post-operation priority is
unmasked. -/
theorem step_tame (s : XicsState) (op : Op) :
    ∀ i, ((step s op).1.irqs i).lsi = (s.irqs i).lsi ∧
      (((step s op).1.irqs i).status.testBit 1 = true →
        (s.irqs i).status.testBit 1 = true ∨
        (((step s op).1.irqs i).priority ≠ 255 ∧ (s.irqs i).lsi = true)) := by
  have shape : ∀ {t t' : XicsState}, IrqsTame t t' →
      ∀ i, (t'.irqs i).lsi = (t.irqs i).lsi ∧
        ((t'.irqs i).status.testBit 1 = true →
          (t.irqs i).status.testBit 1 = true ∨
          ((t'.irqs i).priority ≠ 255 ∧ (t.irqs i).lsi = true)) := by
    intro t t' h i
    obtain ⟨_, hpr, _, hls, hsent⟩ := h i
    refine ⟨hls, fun hh => (hsent hh).imp id ?_⟩
    rintro ⟨hp, hl⟩
    exact ⟨by rw [hpr]; exact hp, hl⟩
  cases op with
  | setCppr server cppr => exact shape (icp_set_cppr_irqsTame s server cppr)
  | setMfrr server mfrr => exact shape (icp_set_mfrr_irqsTame s server mfrr)
  | accept server => exact shape (icp_accept_irqsTame s server)
  | eoi server xirr => exact shape (icp_eoi_irqsTame s server xirr)
  | setIrq srcno val => exact shape (ics_set_irq_irqsTame s srcno val)
  | writeXive nr server priority saved_priority =>
    intro i
    simp only [step, ics_write_xive]
    exact write_pattern_tame s (nr - s.offset)
      { s.irqs (nr - s.offset) with server := server, priority := priority % 256,
                                    saved_priority := saved_priority % 256 } rfl rfl i

theorem reachable_msi_no_sent (nr_servers nr_irqs : Nat) (lsi : Nat → Bool) :
    ∀ s, Reachable nr_servers nr_irqs lsi s →
      ∀ i, (s.irqs i).lsi = false → (s.irqs i).status.testBit 1 = false := by
  intro s h
  induction h with
  | reset => intro i _; simp [resetState]
  | step s' op _ ih =>
    intro i hmsi
    have ht := step_tame s' op i
    have hlsi' : (s'.irqs i).lsi = false := by rw [← ht.1]; exact hmsi
    by_contra hcon
    have hsent : ((step s' op).1.irqs i).status.testBit 1 = true := by
      revert hcon; cases ((step s' op).1.irqs i).status.testBit 1 <;> simp
    rcases ht.2 hsent with h2 | ⟨_, hl⟩
    · rw [ih i hlsi'] at h2; cases h2
    · rw [hlsi'] at hl; cases hl

/-- C10: in every reachable state, an MSI source (lsi = false) never has the
SENT status bit set — resend_lsi, the only place that sets SENT, runs only
for LSI sources, while ics_reject and ics_eoi only clear it. -/
theorem C10_msi_never_sent (nr_servers nr_irqs : Nat) (lsi : Nat → Bool)
    (s : XicsState) (h : Reachable nr_servers nr_irqs lsi s) (i : Nat)
    (hmsi : (s.irqs i).lsi = false) :
    statusTest (s.irqs i).status XICS_STATUS_SENT = false := by
  simp only [statusTest_sent]
  exact reachable_msi_no_sent nr_servers nr_irqs lsi s h i hmsi

theorem C10_witness :
    statusTest
      (((step (resetState 1 4 (fun _ => false)) (Op.writeXive 16 0 5 5)).1.irqs 0).status)
      XICS_STATUS_SENT = false :=
  C10_msi_never_sent 1 4 (fun _ => false) _
    (Reachable.step _ _ Reachable.reset) 0 (by decide)

/-- Counterexample state for C7: a single LSI source, masked (priority 0xff),
status clear. -/
def c7State : XicsState :=
  { nr_servers := 1
    servers := fun _ =>
      { xirr := 0xff000000, pending_priority := 0, mfrr := 0xff, output := false }
    nr_irqs := 1
    offset := 16
    irqs := fun _ =>
      { server := 0, priority := 0xff, saved_priority := 0xff, status := 0, lsi := true } }

/-- C7 counterexample: an LSI source asserted via set_irq while masked does
NOT acquire the MASKED_PENDING bit (it latches ASSERTED instead), refuting
the claim that any source asserted while masked becomes MASKED_PENDING. -/
theorem C7_counterexample :
    (c7State.irqs 0).priority = 0xff ∧
    statusTest ((ics_set_irq c7State 0 1).1.irqs 0).status
      XICS_STATUS_MASKED_PENDING = false ∧
    statusTest ((ics_set_irq c7State 0 1).1.irqs 0).status
      XICS_STATUS_ASSERTED = true := by decide

/-- C7 (amended): no operation newly sets the SENT bit on a source whose
(post-operation) priority is the mask value 0xFF; and an MSI source asserted
via set_irq while masked acquires the MASKED_PENDING bit with the presenter
state unchanged. -/
theorem C7_masked_never_sent :
    (∀ (s : XicsState) (op : Op) (i : Nat),
      statusTest ((step s op).1.irqs i).status XICS_STATUS_SENT = true →
      statusTest (s.irqs i).status XICS_STATUS_SENT = true ∨
      ((step s op).1.irqs i).priority ≠ 0xff) ∧
    (∀ (s : XicsState) (srcno val : Nat),
      val ≠ 0 → (s.irqs srcno).lsi = false → (s.irqs srcno).priority = 0xff →
      statusTest ((ics_set_irq s srcno val).1.irqs srcno).status
        XICS_STATUS_MASKED_PENDING = true ∧
      (ics_set_irq s srcno val).1.servers = s.servers) := by
  constructor
  · intro s op i h
    simp only [statusTest_sent] at h ⊢
    rcases (step_tame s op i).2 h with h2 | ⟨hp, _⟩
    · exact Or.inl h2
    · exact Or.inr hp
  · intro s srcno val hv hlsi hpr
    simp only [ics_set_irq]
    rw [if_neg (by simp [hlsi])]
    simp only [set_irq_msi]
    rw [if_pos hv, if_pos hpr]
    refine ⟨?_, rfl⟩
    simp +decide

/-- Reachable MSI source state used as the C7 witness input. -/
def c7MsiState : XicsState :=
  { nr_servers := 1
    servers := fun _ =>
      { xirr := 0, pending_priority := 0, mfrr := 0xff, output := false }
    nr_irqs := 1
    offset := 16
    irqs := fun _ =>
      { server := 0, priority := 0xff, saved_priority := 0xff, status := 0, lsi := false } }

theorem C7_witness :
    statusTest ((ics_set_irq c7MsiState 0 1).1.irqs 0).status
      XICS_STATUS_MASKED_PENDING = true ∧
    (ics_set_irq c7MsiState 0 1).1.servers = c7MsiState.servers :=
  C7_masked_never_sent.2 c7MsiState 0 1 (by decide) (by decide) (by decide)

/-- C5: icp_accept returns the full 32-bit xirr held before the call;
afterwards XISR is zero, the stored xirr equals pending_priority << 24 (so
the stored high CPPR byte equals the old pending_priority), and the output
pin is lowered.  All of this is unconditional, so in particular it holds
whenever accept returns a non-zero value. -/
theorem C5_accept_spec (s : XicsState) (server : Nat) :
    (icp_accept s server).2 = (s.servers server).xirr ∧
    XISR ((icp_accept s server).1.servers server) = 0 ∧
    ((icp_accept s server).1.servers server).xirr
      = (s.servers server).pending_priority * 16777216 ∧
    CPPR ((icp_accept s server).1.servers server)
      = (s.servers server).pending_priority ∧
    ((icp_accept s server).1.servers server).output = false := by
  refine ⟨rfl, ?_, by simp [icp_accept], ?_, by simp [icp_accept]⟩
  · simp [icp_accept, XISR]
  · simp only [icp_accept, CPPR, updateServer_servers, if_pos rfl]
    exact Nat.mul_div_cancel _ (by norm_num)

/-- Scenario state for C3 (and input for other witnesses): presenter 0 has
CPPR = 0xff with XISR = 16 pending at priority 5; MSI source 16 is routed at
priority 5 and source 17 at priority 2; offset 16, four sources. -/
def c3State : XicsState :=
  { nr_servers := 1
    servers := fun _ =>
      { xirr := 0xff000010, pending_priority := 5, mfrr := 0xff, output := true }
    nr_irqs := 4
    offset := 16
    irqs := fun i =>
      if i = 0 then
        { server := 0, priority := 5, saved_priority := 5, status := 0, lsi := false }
      else if i = 1 then
        { server := 0, priority := 2, saved_priority := 2, status := 0, lsi := false }
      else
        { server := 0, priority := 0xff, saved_priority := 0xff, status := 0, lsi := false } }

/-- C3: no interrupt is lost across a reject cycle.  From c3State, delivering
source 17 at priority 2 sets source 16's REJECTED bit and installs XISR = 17
at pending_priority 2 with the pin still raised; accept returns an xirr
carrying 17; after eoi of that xirr the resend pass clears source 16's
REJECTED bit and redelivers it, so XISR = 16 again. -/
theorem C3_no_loss_reject_cycle :
    statusTest ((ics_set_irq c3State 1 1).1.irqs 0).status XICS_STATUS_REJECTED = true ∧
    XISR ((ics_set_irq c3State 1 1).1.servers 0) = 17 ∧
    ((ics_set_irq c3State 1 1).1.servers 0).pending_priority = 2 ∧
    ((ics_set_irq c3State 1 1).1.servers 0).output = true ∧
    (icp_accept (ics_set_irq c3State 1 1).1 0).2 % 16777216 = 17 ∧
    statusTest ((icp_eoi (icp_accept (ics_set_irq c3State 1 1).1 0).1 0
        (icp_accept (ics_set_irq c3State 1 1).1 0).2).1.irqs 0).status
      XICS_STATUS_REJECTED = false ∧
    XISR ((icp_eoi (icp_accept (ics_set_irq c3State 1 1).1 0).1 0
        (icp_accept (ics_set_irq c3State 1 1).1 0).2).1.servers 0) = 16 := by
  decide

/-- C1: icp_irq(server, nr, priority) rejects — calls ics_reject(nr) and
leaves the presenter untouched — exactly when priority ≥ CPPR or a pending
XISR has pending_priority ≤ priority; otherwise it first rejects any old
XISR, then installs XISR = nr (low 24 bits), pending_priority = priority,
and raises the output pin. -/
theorem C1_icp_irq_spec (s : XicsState) (server nr priority : Nat)
    (hp : priority < 256) :
    ((priority ≥ CPPR (s.servers server) ∨
        (XISR (s.servers server) ≠ 0 ∧ (s.servers server).pending_priority ≤ priority)) →
      icp_irq s server nr priority = (ics_reject s nr, []) ∧
      (icp_irq s server nr priority).1.servers = s.servers) ∧
    (¬ (priority ≥ CPPR (s.servers server) ∨
        (XISR (s.servers server) ≠ 0 ∧ (s.servers server).pending_priority ≤ priority)) →
      (icp_irq s server nr priority).1.irqs
        = (if XISR (s.servers server) ≠ 0 then ics_reject s (XISR (s.servers server))
           else s).irqs ∧
      XISR ((icp_irq s server nr priority).1.servers server) = nr % 16777216 ∧
      ((icp_irq s server nr priority).1.servers server).pending_priority = priority ∧
      ((icp_irq s server nr priority).1.servers server).output = true) := by
  constructor
  · intro h
    simp only [icp_irq, Nat.mod_eq_of_lt hp]
    rw [if_pos h]
    exact ⟨rfl, rfl⟩
  · intro h
    simp only [icp_irq, Nat.mod_eq_of_lt hp]
    rw [if_neg h]
    refine ⟨rfl, ?_, ?_, ?_⟩ <;> simp only [updateServer_servers, ite_true]
    simp only [XISR, mod_high_set_low]
    omega

theorem C1_witness :
    XISR ((icp_irq c3State 0 18 3).1.servers 0) = 18 ∧
    ((icp_irq c3State 0 18 3).1.servers 0).pending_priority = 3 ∧
    ((icp_irq c3State 0 18 3).1.servers 0).output = true := by
  have h := (C1_icp_irq_spec c3State 0 18 3 (by norm_num)).2 (by decide)
  exact ⟨by rw [h.2.1], h.2.2.1, h.2.2.2⟩

/-- Counterexample state for C4: a single MSI source, masked (priority 0xff),
with the REJECTED status bit set. -/
def c4State : XicsState :=
  { nr_servers := 1
    servers := fun _ =>
      { xirr := 0, pending_priority := 0, mfrr := 0xff, output := false }
    nr_irqs := 1
    offset := 16
    irqs := fun _ =>
      { server := 0, priority := 0xff, saved_priority := 0xff, status := 4, lsi := false } }

/-- C4 counterexample: a masked MSI source with REJECTED set does NOT have
its status left unchanged by resend_msi — the REJECTED bit is cleared even
though the source is masked. -/
theorem C4_counterexample :
    (c4State.irqs 0).priority = 0xff ∧
    statusTest (c4State.irqs 0).status XICS_STATUS_REJECTED = true ∧
    ((resend_msi c4State 0).1.irqs 0).status ≠ (c4State.irqs 0).status ∧
    statusTest ((resend_msi c4State 0).1.irqs 0).status XICS_STATUS_REJECTED = false := by
  decide

/-- C4 (amended): resend_msi(i): if REJECTED is set it is always cleared,
and icp_irq(server, i+offset, priority) is called precisely when the source
is moreover unmasked; a masked source with REJECTED set has REJECTED cleared
with no delivery; a source without REJECTED set is left unchanged. -/
theorem C4_resend_msi_spec (s : XicsState) (srcno : Nat) :
    (statusTest (s.irqs srcno).status XICS_STATUS_REJECTED = true →
      ((s.irqs srcno).priority ≠ 0xff →
        resend_msi s srcno
          = icp_irq (updateIrq s srcno
              { s.irqs srcno with
                status := statusClear (s.irqs srcno).status XICS_STATUS_REJECTED })
              (s.irqs srcno).server (srcno + s.offset) (s.irqs srcno).priority) ∧
      ((s.irqs srcno).priority = 0xff →
        resend_msi s srcno
          = (updateIrq s srcno
              { s.irqs srcno with
                status := statusClear (s.irqs srcno).status XICS_STATUS_REJECTED }, []))) ∧
    (statusTest (s.irqs srcno).status XICS_STATUS_REJECTED = false →
      resend_msi s srcno = (s, [])) := by
  refine ⟨fun hr => ⟨fun hp => ?_, fun hp => ?_⟩, fun hr => ?_⟩
  · simp only [resend_msi]
    rw [if_pos hr, if_pos hp]
  · simp only [resend_msi]
    rw [if_pos hr, if_neg (not_not_intro hp)]
  · simp only [resend_msi]
    rw [if_neg (by simp [hr])]

theorem C4_witness :
    resend_msi c4State 0
      = (updateIrq c4State 0
          { c4State.irqs 0 with
            status := statusClear (c4State.irqs 0).status XICS_STATUS_REJECTED }, []) :=
  ((C4_resend_msi_spec c4State 0).1 (by decide)).2 (by decide)

theorem icp_irq_cppr (s : XicsState) (server nr priority t : Nat) :
    CPPR ((icp_irq s server nr priority).1.servers t) = CPPR (s.servers t) := by
  simp only [icp_irq]
  split
  · rfl
  · simp only [updateServer_servers]
    by_cases ht : t = server
    · subst ht
      rw [if_pos rfl]
      simp only [CPPR]
      exact div_high_set_low _ _ (low24_lt nr)
    · rw [if_neg ht]
      split <;> rfl

theorem icp_check_ipi_cppr (s : XicsState) (server t : Nat) :
    CPPR ((icp_check_ipi s server).1.servers t) = CPPR (s.servers t) := by
  simp only [icp_check_ipi]
  split
  · rfl
  · simp only [updateServer_servers]
    by_cases ht : t = server
    · subst ht
      rw [if_pos rfl]
      simp only [CPPR]
      exact div_high_set_low _ XICS_IPI (by norm_num [XICS_IPI])
    · rw [if_neg ht]
      split <;> rfl

theorem resend_msi_cppr (s : XicsState) (srcno t : Nat) :
    CPPR ((resend_msi s srcno).1.servers t) = CPPR (s.servers t) := by
  simp only [resend_msi]
  split
  · split
    · rw [icp_irq_cppr]; rfl
    · rfl
  · rfl

theorem resend_lsi_cppr (s : XicsState) (srcno t : Nat) :
    CPPR ((resend_lsi s srcno).1.servers t) = CPPR (s.servers t) := by
  simp only [resend_lsi]
  split
  · rw [icp_irq_cppr]; rfl
  · rfl

theorem ics_resend_from_cppr (s : XicsState) (i fuel t : Nat) :
    CPPR ((ics_resend_from s i fuel).1.servers t) = CPPR (s.servers t) := by
  induction fuel generalizing s i with
  | zero => rfl
  | succ n ih =>
    simp only [ics_resend_from]
    rw [ih]
    split
    · rw [resend_lsi_cppr]
    · rw [resend_msi_cppr]

theorem ics_resend_cppr (s : XicsState) (t : Nat) :
    CPPR ((ics_resend s).1.servers t) = CPPR (s.servers t) :=
  ics_resend_from_cppr s 0 s.nr_irqs t

theorem icp_resend_cppr (s : XicsState) (server t : Nat) :
    CPPR ((icp_resend s server).1.servers t) = CPPR (s.servers t) := by
  simp only [icp_resend]
  rw [ics_resend_cppr]
  split
  · rw [icp_check_ipi_cppr]
  · rfl

/-- C6: icp_set_cppr updates CPPR to cppr; when lowering below a pending
XISR whose pending_priority ≥ cppr, the XISR is withdrawn (cleared), the
output pin lowered and ics_reject(old_xisr) invoked; when not lowering and
no XISR is pending, resend(server) is invoked on the CPPR-updated state. -/
theorem C6_set_cppr_spec (s : XicsState) (server cppr : Nat) (hc : cppr < 256) :
    CPPR ((icp_set_cppr s server cppr).1.servers server) = cppr ∧
    ((cppr < CPPR (s.servers server) ∧ XISR (s.servers server) ≠ 0 ∧
        cppr ≤ (s.servers server).pending_priority) →
      XISR ((icp_set_cppr s server cppr).1.servers server) = 0 ∧
      ((icp_set_cppr s server cppr).1.servers server).output = false ∧
      (icp_set_cppr s server cppr).1.irqs
        = (ics_reject s (XISR (s.servers server))).irqs) ∧
    ((¬ cppr < CPPR (s.servers server)) ∧ XISR (s.servers server) = 0 →
      icp_set_cppr s server cppr
        = icp_resend (updateServer s server
            { s.servers server with
              xirr := (s.servers server).xirr % 16777216 + cppr * 16777216 }) server) := by
  have hx : XISR { s.servers server with
      xirr := (s.servers server).xirr % 16777216 + cppr * 16777216 }
      = XISR (s.servers server) := by
    simp only [XISR]
    exact mod_set_high _ _
  refine ⟨?_, ?_, ?_⟩
  · simp only [icp_set_cppr, Nat.mod_eq_of_lt hc]
    split
    · split
      · simp only [ics_reject_servers, updateServer_servers, ite_true, CPPR]
        rw [Nat.mul_div_cancel _ (by norm_num : 0 < 16777216)]
        exact div_set_high _ _
      · simp only [updateServer_servers, ite_true, CPPR]
        exact div_set_high _ _
    · split
      · rw [icp_resend_cppr]
        simp only [updateServer_servers, ite_true, CPPR]
        exact div_set_high _ _
      · simp only [updateServer_servers, ite_true, CPPR]
        exact div_set_high _ _
  · rintro ⟨h1, h2, h3⟩
    simp only [icp_set_cppr, Nat.mod_eq_of_lt hc]
    rw [if_pos h1, if_pos (by rw [hx]; exact ⟨h2, h3⟩)]
    refine ⟨?_, ?_, ?_⟩
    · simp only [ics_reject_servers, updateServer_servers, ite_true, XISR]
      exact Nat.mul_mod_left _ _
    · simp only [ics_reject_servers, updateServer_servers, ite_true]
    · rw [hx]
      funext j
      simp [ics_reject]
  · rintro ⟨h1, h2⟩
    simp only [icp_set_cppr, Nat.mod_eq_of_lt hc]
    rw [if_neg h1, if_pos (by rw [hx]; exact h2)]

theorem C6_witness :
    XISR ((icp_set_cppr c3State 0 3).1.servers 0) = 0 ∧
    ((icp_set_cppr c3State 0 3).1.servers 0).output = false ∧
    CPPR ((icp_set_cppr c3State 0 3).1.servers 0) = 3 := by
  have h := C6_set_cppr_spec c3State 0 3 (by norm_num)
  have h2 := h.2.1 ⟨by decide, by decide, by decide⟩
  exact ⟨h2.1, h2.2.1, h.1⟩

theorem ics_valid_irq_iff (s : XicsState) (nr : Nat) :
    ics_valid_irq s nr = true ↔ (s.offset ≤ nr ∧ nr < s.offset + s.nr_irqs) := by
  simp [ics_valid_irq]

/-- C9: rtas ibm,set-xive writes status -3 and leaves all state unchanged
when nargs/nret are wrong or the (uint32-truncated) nr is outside
[offset, offset+nr_irqs) or server ≥ nr_servers or priority > 0xff;
otherwise it performs write_xive(nr, server, priority, priority) and writes
status 0. -/
theorem C9_rtas_set_xive_spec (s : XicsState) (nargs : Nat) (args : List Nat)
    (nret : Nat) :
    ((nargs ≠ 3 ∨ nret ≠ 1) → rtas_set_xive s nargs args nret = (s, -3, [])) ∧
    (nargs = 3 → nret = 1 →
      ((args.getD 0 0 % 4294967296 < s.offset ∨
        s.offset + s.nr_irqs ≤ args.getD 0 0 % 4294967296 ∨
        s.nr_servers ≤ args.getD 1 0 % 4294967296 ∨
        255 < args.getD 2 0 % 4294967296) →
        rtas_set_xive s nargs args nret = (s, -3, [])) ∧
      (s.offset ≤ args.getD 0 0 % 4294967296 →
       args.getD 0 0 % 4294967296 < s.offset + s.nr_irqs →
       args.getD 1 0 % 4294967296 < s.nr_servers →
       args.getD 2 0 % 4294967296 ≤ 255 →
        rtas_set_xive s nargs args nret
          = ((ics_write_xive s (args.getD 0 0 % 4294967296)
               (args.getD 1 0 % 4294967296) (args.getD 2 0 % 4294967296)
               (args.getD 2 0 % 4294967296)).1, 0,
             (ics_write_xive s (args.getD 0 0 % 4294967296)
               (args.getD 1 0 % 4294967296) (args.getD 2 0 % 4294967296)
               (args.getD 2 0 % 4294967296)).2))) := by
  refine ⟨fun h => ?_, fun h3 h1 => ⟨fun hbad => ?_, fun ha hb hsv hpr => ?_⟩⟩
  · simp only [rtas_set_xive]
    rw [if_pos h]
  · subst h3; subst h1
    simp only [rtas_set_xive]
    rw [if_neg (by simp), if_pos]
    rcases hbad with h | h | h | h
    · exact Or.inl (by rw [ics_valid_irq_iff]; omega)
    · exact Or.inl (by rw [ics_valid_irq_iff]; omega)
    · exact Or.inr (Or.inl h)
    · exact Or.inr (Or.inr h)
  · subst h3; subst h1
    simp only [rtas_set_xive]
    rw [if_neg (by simp), if_neg]
    push_neg
    refine ⟨?_, hsv, by omega⟩
    rw [ics_valid_irq_iff]
    exact ⟨ha, hb⟩

theorem C9_witness :
    rtas_set_xive c3State 3 [40, 0, 7] 1 = (c3State, -3, []) ∧
    rtas_set_xive c3State 2 [17, 0, 7] 1 = (c3State, -3, []) := by
  refine ⟨((C9_rtas_set_xive_spec c3State 3 [40, 0, 7] 1).2 rfl rfl).1 ?_,
          (C9_rtas_set_xive_spec c3State 2 [17, 0, 7] 1).1 ?_⟩
  · right; left; decide
  · left; decide

/-- Writing a masked priority (0xff) through ics_write_xive updates only the
routing fields: neither the LSI nor the MSI delivery path fires. -/
theorem ics_write_xive_masked (s : XicsState) (nr server saved : Nat) :
    (ics_write_xive s nr server 0xff saved).1
      = updateIrq s (nr - s.offset)
          { s.irqs (nr - s.offset) with
            server := server, priority := 0xff,
            saved_priority := saved % 256 } := by
  have h255 : (0xff : Nat) % 256 = 0xff := rfl
  simp only [ics_write_xive, h255]
  split
  · simp [write_xive_lsi, resend_lsi]
  · simp [write_xive_msi]

/-- After ics_write_xive the written source carries exactly the written
routing fields; the delivery attempt only ever touches status bits. -/
theorem ics_write_xive_fields (s : XicsState) (nr server priority saved : Nat) :
    ((ics_write_xive s nr server priority saved).1.irqs (nr - s.offset)).server
      = server ∧
    ((ics_write_xive s nr server priority saved).1.irqs (nr - s.offset)).priority
      = priority % 256 ∧
    ((ics_write_xive s nr server priority saved).1.irqs
        (nr - s.offset)).saved_priority = saved % 256 := by
  simp only [ics_write_xive]
  split
  · rename_i hlsi
    obtain ⟨hsrv, hpr, hsv, _, _⟩ :=
      write_xive_lsi_irqsTame
        (updateIrq s (nr - s.offset)
          { s.irqs (nr - s.offset) with
            server := server, priority := priority % 256,
            saved_priority := saved % 256 }) (nr - s.offset)
        (by simpa using hlsi) (nr - s.offset)
    rw [hsrv, hpr, hsv]
    simp
  · obtain ⟨hsrv, hpr, hsv, _, _⟩ :=
      write_xive_msi_irqsTame
        (updateIrq s (nr - s.offset)
          { s.irqs (nr - s.offset) with
            server := server, priority := priority % 256,
            saved_priority := saved % 256 }) (nr - s.offset)
        (nr - s.offset)
    rw [hsrv, hpr, hsv]
    simp

/-- C8: ibm,int-off followed by ibm,int-on restores the source's
(server, priority) pair: int-off writes priority = 0xff saving the prior
priority into saved_priority, and int-on writes back saved_priority. -/
theorem C8_mask_round_trip (s : XicsState) (nr : Nat)
    (hvalid : s.offset ≤ nr ∧ nr < s.offset + s.nr_irqs)
    (hnr : nr < 4294967296)
    (hprio : (s.irqs (nr - s.offset)).priority < 256) :
    (((rtas_int_off s 1 [nr] 1).1.irqs (nr - s.offset)).priority = 0xff ∧
     ((rtas_int_off s 1 [nr] 1).1.irqs (nr - s.offset)).saved_priority
        = (s.irqs (nr - s.offset)).priority) ∧
    ((rtas_int_on (rtas_int_off s 1 [nr] 1).1 1 [nr] 1).1.irqs
        (nr - s.offset)).server = (s.irqs (nr - s.offset)).server ∧
    ((rtas_int_on (rtas_int_off s 1 [nr] 1).1 1 [nr] 1).1.irqs
        (nr - s.offset)).priority = (s.irqs (nr - s.offset)).priority := by
  have hv : ics_valid_irq s nr = true := by
    rw [ics_valid_irq_iff]; exact hvalid
  have hs1 : (rtas_int_off s 1 [nr] 1).1
      = updateIrq s (nr - s.offset)
          { s.irqs (nr - s.offset) with
            server := (s.irqs (nr - s.offset)).server, priority := 0xff,
            saved_priority := (s.irqs (nr - s.offset)).priority % 256 } := by
    simp only [rtas_int_off]
    rw [if_neg (by simp)]
    simp only [List.getD_cons_zero, Nat.mod_eq_of_lt hnr]
    rw [if_neg (not_not_intro hv)]
    exact ics_write_xive_masked s nr (s.irqs (nr - s.offset)).server
      (s.irqs (nr - s.offset)).priority
  rw [hs1]
  have hoff : (updateIrq s (nr - s.offset)
      { s.irqs (nr - s.offset) with
        server := (s.irqs (nr - s.offset)).server, priority := 0xff,
        saved_priority := (s.irqs (nr - s.offset)).priority % 256 }).offset
      = s.offset := rfl
  refine ⟨⟨by simp, by simp [Nat.mod_eq_of_lt hprio]⟩, ?_⟩
  simp only [rtas_int_on]
  rw [if_neg (by simp)]
  simp only [List.getD_cons_zero, Nat.mod_eq_of_lt hnr]
  rw [if_neg (not_not_intro (by rw [ics_valid_irq_iff]; simpa using hvalid))]
  have hf := ics_write_xive_fields
    (updateIrq s (nr - s.offset)
      { s.irqs (nr - s.offset) with
        server := (s.irqs (nr - s.offset)).server, priority := 0xff,
        saved_priority := (s.irqs (nr - s.offset)).priority % 256 }) nr
  simp only [updateIrq_offset] at hf
  constructor
  · rw [(hf _ _ _).1]
    simp
  · rw [(hf _ _ _).2.1]
    simp [Nat.mod_eq_of_lt hprio, Nat.mod_mod_of_dvd]

theorem C8_witness :
    ((rtas_int_on (rtas_int_off c3State 1 [16] 1).1 1 [16] 1).1.irqs 0).server = 0 ∧
    ((rtas_int_on (rtas_int_off c3State 1 [16] 1).1 1 [16] 1).1.irqs 0).priority = 5 := by
  have h := C8_mask_round_trip c3State 16 (by decide) (by norm_num) (by decide)
  exact ⟨h.2.1, h.2.2⟩

/-- Every raise event in the list satisfies the priority gate: the installed
pending priority is strictly below the CPPR at the moment of the raise. -/
def eventsOk (l : List RaiseEvent) : Prop :=
  ∀ e ∈ l, e.pending_priority < e.cppr

theorem eventsOk_nil : eventsOk [] := fun e he => absurd he (List.not_mem_nil e)

theorem eventsOk_append {l1 l2 : List RaiseEvent}
    (h1 : eventsOk l1) (h2 : eventsOk l2) : eventsOk (l1 ++ l2) := by
  intro e he
  rcases List.mem_append.mp he with h | h
  · exact h1 e h
  · exact h2 e h

theorem icp_irq_events (s : XicsState) (server nr priority : Nat) :
    eventsOk (icp_irq s server nr priority).2 := by
  simp only [icp_irq]
  split
  · exact eventsOk_nil
  · rename_i h
    push_neg at h
    simp only [CPPR] at h
    intro e he
    simp only [List.mem_singleton] at he
    subst he
    dsimp only
    simp only [CPPR]
    rw [div_high_set_low _ _ (low24_lt nr)]
    exact h.1

theorem icp_check_ipi_events (s : XicsState) (server : Nat)
    (h : (s.servers server).mfrr < CPPR (s.servers server)) :
    eventsOk (icp_check_ipi s server).2 := by
  simp only [icp_check_ipi]
  split
  · exact eventsOk_nil
  · intro e he
    simp only [List.mem_singleton] at he
    subst he
    dsimp only
    simp only [CPPR] at h ⊢
    rw [div_high_set_low _ _ (by norm_num [XICS_IPI])]
    exact h

theorem resend_msi_events (s : XicsState) (srcno : Nat) :
    eventsOk (resend_msi s srcno).2 := by
  simp only [resend_msi]
  split
  · split
    · exact icp_irq_events _ _ _ _
    · exact eventsOk_nil
  · exact eventsOk_nil

theorem resend_lsi_events (s : XicsState) (srcno : Nat) :
    eventsOk (resend_lsi s srcno).2 := by
  simp only [resend_lsi]
  split
  · exact icp_irq_events _ _ _ _
  · exact eventsOk_nil

theorem ics_resend_from_events (s : XicsState) (i fuel : Nat) :
    eventsOk (ics_resend_from s i fuel).2 := by
  induction fuel generalizing s i with
  | zero => exact eventsOk_nil
  | succ n ih =>
    simp only [ics_resend_from]
    apply eventsOk_append
    · split
      · exact resend_lsi_events _ _
      · exact resend_msi_events _ _
    · exact ih _ _

theorem ics_resend_events (s : XicsState) : eventsOk (ics_resend s).2 :=
  ics_resend_from_events s 0 s.nr_irqs

theorem icp_resend_events (s : XicsState) (server : Nat) :
    eventsOk (icp_resend s server).2 := by
  simp only [icp_resend]
  apply eventsOk_append
  · split
    · exact icp_check_ipi_events _ _ ‹_›
    · exact eventsOk_nil
  · exact ics_resend_events _

theorem icp_set_cppr_events (s : XicsState) (server cppr : Nat) :
    eventsOk (icp_set_cppr s server cppr).2 := by
  simp only [icp_set_cppr]
  split
  · split
    · exact eventsOk_nil
    · exact eventsOk_nil
  · split
    · exact icp_resend_events _ _
    · exact eventsOk_nil

theorem icp_set_mfrr_events (s : XicsState) (server mfrr : Nat) :
    eventsOk (icp_set_mfrr s server mfrr).2 := by
  simp only [icp_set_mfrr]
  split
  · apply icp_check_ipi_events
    simp only [updateServer_servers, ite_true]
    exact ‹_›
  · exact eventsOk_nil

theorem icp_eoi_events (s : XicsState) (server xirr : Nat) :
    eventsOk (icp_eoi s server xirr).2 := by
  simp only [icp_eoi]
  split
  · exact icp_resend_events _ _
  · exact eventsOk_nil

theorem set_irq_msi_events (s : XicsState) (srcno val : Nat) :
    eventsOk (set_irq_msi s srcno val).2 := by
  simp only [set_irq_msi]
  split
  · split
    · exact eventsOk_nil
    · exact icp_irq_events _ _ _ _
  · exact eventsOk_nil

theorem set_irq_lsi_events (s : XicsState) (srcno val : Nat) :
    eventsOk (set_irq_lsi s srcno val).2 := by
  simp only [set_irq_lsi]
  exact resend_lsi_events _ _

theorem ics_set_irq_events (s : XicsState) (srcno val : Nat) :
    eventsOk (ics_set_irq s srcno val).2 := by
  simp only [ics_set_irq]
  split
  · exact set_irq_lsi_events _ _ _
  · exact set_irq_msi_events _ _ _

theorem write_xive_msi_events (s : XicsState) (srcno : Nat) :
    eventsOk (write_xive_msi s srcno).2 := by
  simp only [write_xive_msi]
  split
  · exact eventsOk_nil
  · exact icp_irq_events _ _ _ _

theorem ics_write_xive_events (s : XicsState) (nr server priority saved : Nat) :
    eventsOk (ics_write_xive s nr server priority saved).2 := by
  simp only [ics_write_xive]
  split
  · exact resend_lsi_events _ _
  · exact write_xive_msi_events _ _

/-- C2: every raise event produced by any top-level operation, from any
state whatsoever (hence in particular along any operation sequence from any
reachable state), installs a pending priority strictly below the CPPR read
at the moment of the raise — both for source deliveries via icp_irq (whose
install branch requires priority < CPPR) and for IPIs via icp_check_ipi
(whose callers guard it with mfrr < CPPR). -/
theorem C2_priority_gate (s : XicsState) (op : Op) (e : RaiseEvent)
    (he : e ∈ (step s op).2) : e.pending_priority < e.cppr := by
  have h : eventsOk (step s op).2 := by
    cases op with
    | setCppr server cppr => exact icp_set_cppr_events s server cppr
    | setMfrr server mfrr => exact icp_set_mfrr_events s server mfrr
    | accept server => exact eventsOk_nil
    | eoi server xirr => exact icp_eoi_events s server xirr
    | setIrq srcno val => exact ics_set_irq_events s srcno val
    | writeXive nr server priority saved_priority =>
      exact ics_write_xive_events s nr server priority saved_priority
  exact h e he

theorem C2_witness :
    (⟨0, 17, 2, 255⟩ : RaiseEvent) ∈ (step c3State (Op.setIrq 1 1)).2 ∧ (2 : Nat) < 255 :=
  ⟨by decide, C2_priority_gate c3State (Op.setIrq 1 1) ⟨0, 17, 2, 255⟩ (by decide)⟩

end Xics
